import Mathlib

/-!
# Mill adapter: session, inventory walk and poll tick

A shallow embedding of `millapi/client.go` (the vendor client) and of the poll loop of
`service.go`.

Conventions of the embedding.

* Go `int`, `int64` are `Int`; the program compares and copies them and formats them, it does no
  arithmetic on them. A Go `error` is an `Option Error` (`none` is `nil`). A `float32` is carried
  by its bit pattern; the program only copies it.
* The network is a `Vendor`: for each endpoint, what `http.DefaultClient.Do` returns for a
  request. A reply is a transport error or a response with a status code and a body. A body is
  described by what `json.Decoder.Decode` does with it on the holder: the fields it assigns and the
  error it returns. A field the body does not assign keeps the value the holder had before.
  The body of a list endpoint assigns the one list of that endpoint, with its elements decoded
  afresh, so the slice a `range` statement walks is not reassigned inside its own loop body and
  a ranged loop is a fold over the list.
* Every request handed to `Do` is appended to a wire log `sent`; every message handed to
  `mqtt.Publish` is appended to `published`. Logging and `SaveToFile` are left out.
* Request construction (`http.NewRequest`) is taken to succeed.
-/

namespace Mill

/-- A Go `error` value, by its message. -/
abbrev Error := String

/-- A `float32`, by its IEEE-754 bit pattern. -/
structure Float32 where
  bits : Nat
  deriving DecidableEq, Repr

/-- The type `Device` of client.go. -/
structure Device where
  MaxTemperature : Int := 0
  MaxTemperatureMsg : String := ""
  ChangeTemperature : Int := 0
  CanChangeTemp : Int := 0
  DeviceID : Int := 0
  DeviceName : String := ""
  ChangeTemperatureMsg : String := ""
  Mac : String := ""
  DeviceStatus : Int := 0
  HeaterFlag : Int := 0
  SubDomainID : Int := 0
  ControlType : Int := 0
  CurrentTemp : Float32 := ⟨0⟩
  SetpointTemp : Int := 0
  deriving DecidableEq, Repr

/-- The type `Home` of client.go; the `interface{}` field is carried as its JSON text. -/
structure Home where
  HomeName : String := ""
  IsHoliday : Int := 0
  HolidayStartTime : Int := 0
  TimeZone : String := ""
  ModeMinute : Int := 0
  ModeStartTime : Int := 0
  HolidayTemp : Int := 0
  ModeHour : Int := 0
  CurrentMode : Int := 0
  HolidayEndTime : Int := 0
  HomeType : String := ""
  HomeID : Int := 0
  ProgramID : Int := 0
  deriving DecidableEq, Repr

/-- The type `Room` of client.go; the `[]interface{}` field is carried as JSON texts. -/
structure Room where
  MaxTemperature : Int := 0
  IndependentDeviceIds : List String := []
  MaxTemperatureMsg : String := ""
  ChangeTemperature : Int := 0
  ControlSource : String := ""
  ComfortTemp : Int := 0
  RoomProgram : String := ""
  AwayTemp : Int := 0
  AvgTemp : Int := 0
  ChangeTemperatureMsg : String := ""
  RoomID : Int := 0
  RoomName : String := ""
  CurrentMode : Int := 0
  HeatStatus : Int := 0
  OffLineDeviceNum : Int := 0
  Total : Int := 0
  IndependentCount : Int := 0
  SleepTemp : Int := 0
  OnlineDeviceNum : Int := 0
  IsOffline : Int := 0
  deriving DecidableEq, Repr

/-- The anonymous struct `Config.Data`. -/
structure ConfigData where
  AuthorizationCode : String := ""
  AccessToken : String := ""
  RefreshToken : String := ""
  ExpireTime : Int := 0
  RefreshExpireTime : Int := 0
  deriving DecidableEq, Repr

/-- The type `Config` of client.go; `{}` is the Go zero value `mill.Config{}`. -/
structure Config where
  ErrorCode : Int := 0
  Message : String := ""
  StatusCode : Int := 0
  Success : Bool := false
  Password : String := ""
  Username : String := ""
  Data : ConfigData := {}
  deriving DecidableEq, Repr

/-- The anonymous struct `Client.Data`. -/
structure ClientData where
  Homes : List Home := []
  Rooms : List Room := []
  Devices : List Device := []
  IndependentDevices : List Device := []
  deriving DecidableEq, Repr

/-- The type `Client` of client.go (the field `httpResponse` is never assigned or read);
`{}` is the Go zero value `mill.Client{}`. -/
structure Client where
  Data : ClientData := {}
  deriving DecidableEq, Repr

/-! ## The vendor -/

/-- What `http.DefaultClient.Do` returns: an error, or a response with a status and a body. -/
inductive HttpResult (β : Type) where
  | transportError (err : Error)
  | response (StatusCode : Int) (body : β)
  deriving DecidableEq

/-- A body sent to a `Config` holder: the fields decoding assigns and the error it returns. -/
structure ConfigBody where
  errorCode : Option Int := none
  message : Option String := none
  statusCode : Option Int := none
  success : Option Bool := none
  password : Option String := none
  username : Option String := none
  authorization_code : Option String := none
  access_token : Option String := none
  refresh_token : Option String := none
  expireTime : Option Int := none
  refresh_expireTime : Option Int := none
  decodeErr : Option Error := none
  deriving DecidableEq

/-- A body sent to a `Client` holder by a list endpoint: the list decoding assigns, if the body
has the key, and the error decoding returns. -/
structure ListBody (α : Type) where
  list : Option (List α) := none
  decodeErr : Option Error := none
  deriving DecidableEq

/-- A request put on the wire, by endpoint, with its `Access_token` header and parameters. -/
inductive Request where
  | refreshtoken (refreshToken : String)
  | selectHomeList (accessToken : String)
  | selectRoombyHome (accessToken : String) (homeId : Int)
  | selectDevicebyRoom (accessToken : String) (roomId : Int)
  | getIndependentDevices (accessToken : String) (homeId : Int)
  | deviceControl (accessToken : String) (deviceId : String) (newTemp : String)
  deriving DecidableEq, Repr

/-- The vendor API: the reply of each endpoint to a request. -/
structure Vendor where
  refreshtoken : String → HttpResult ConfigBody
  selectHomeList : String → HttpResult (ListBody Home)
  selectRoombyHome : String → Int → HttpResult (ListBody Room)
  selectDevicebyRoom : String → Int → HttpResult (ListBody Device)
  getIndependentDevices : String → Int → HttpResult (ListBody Device)
  deviceControl : String → String → String → HttpResult ConfigBody

/-! ## client.go -/

/-- The call `json.NewDecoder(resp.Body).Decode(holder)` on a `*Config`. -/
def decodeConfig (b : ConfigBody) (cf : Config) : Config × Option Error :=
  ({ ErrorCode := b.errorCode.getD cf.ErrorCode
     Message := b.message.getD cf.Message
     StatusCode := b.statusCode.getD cf.StatusCode
     Success := b.success.getD cf.Success
     Password := b.password.getD cf.Password
     Username := b.username.getD cf.Username
     Data :=
       { AuthorizationCode := b.authorization_code.getD cf.Data.AuthorizationCode
         AccessToken := b.access_token.getD cf.Data.AccessToken
         RefreshToken := b.refresh_token.getD cf.Data.RefreshToken
         ExpireTime := b.expireTime.getD cf.Data.ExpireTime
         RefreshExpireTime := b.refresh_expireTime.getD cf.Data.RefreshExpireTime } },
   b.decodeErr)

/-- Decoding the body of `selectHomeList` (key `homeList`) on a `*Client`. -/
def decodeHomes (b : ListBody Home) (c : Client) : Client × Option Error :=
  ({ c with Data := { c.Data with Homes := b.list.getD c.Data.Homes } }, b.decodeErr)

/-- Decoding the body of `selectRoombyHome` (key `roomList`) on a `*Client`. -/
def decodeRooms (b : ListBody Room) (c : Client) : Client × Option Error :=
  ({ c with Data := { c.Data with Rooms := b.list.getD c.Data.Rooms } }, b.decodeErr)

/-- Decoding the body of `selectDevicebyRoom` (key `deviceList`) on a `*Client`. -/
def decodeDevices (b : ListBody Device) (c : Client) : Client × Option Error :=
  ({ c with Data := { c.Data with Devices := b.list.getD c.Data.Devices } }, b.decodeErr)

/-- Decoding the body of `getIndependentDevices` (key `deviceInfoList`) on a `*Client`. -/
def decodeIndependentDevices (b : ListBody Device) (c : Client) : Client × Option Error :=
  ({ c with Data := { c.Data with IndependentDevices := b.list.getD c.Data.IndependentDevices } },
   b.decodeErr)

/-- The function `processHTTPResponse`: the holder afterwards and the returned error. -/
def processHTTPResponse {β H : Type} (decode : β → H → H × Option Error)
    (resp : HttpResult β) (holder : H) : H × Option Error :=
  match resp with
  | .transportError err => (holder, some err)
  | .response StatusCode body =>
    if StatusCode ≠ 200 then
      (holder, some ("Bad HTTP return code " ++ toString StatusCode))
    else
      decode body holder

/-- The error of the second result of `http.DefaultClient.Do`. -/
def doErr {β : Type} (resp : HttpResult β) : Option Error :=
  match resp with
  | .transportError err => some err
  | .response _ _ => none

/-- The results of `RefreshToken`, with the `Config` holder and the wire log afterwards. -/
structure RefreshResult where
  accessToken : String
  refreshToken : String
  expireTime : Int
  refreshExpireTime : Int
  err : Option Error
  config : Config
  sent : List Request

/-- The method `(config *Config) RefreshToken`. When `processHTTPResponse` returns an error the
method returns `err`, the error of `Do`. -/
def RefreshToken (v : Vendor) (config : Config) (refreshToken : String) (sent : List Request) :
    RefreshResult :=
  let resp := v.refreshtoken refreshToken
  let sent1 := sent ++ [Request.refreshtoken refreshToken]
  let err := doErr resp
  let r := processHTTPResponse decodeConfig resp config
  let config1 := r.1
  if r.2 ≠ none then
    { accessToken := config1.Data.AccessToken, refreshToken := config1.Data.RefreshToken,
      expireTime := config1.Data.ExpireTime, refreshExpireTime := config1.Data.RefreshExpireTime,
      err := err, config := config1, sent := sent1 }
  else
    { accessToken := config1.Data.AccessToken, refreshToken := config1.Data.RefreshToken,
      expireTime := config1.Data.ExpireTime, refreshExpireTime := config1.Data.RefreshExpireTime,
      err := none, config := config1, sent := sent1 }

/-- What a `Get...` method leaves and returns: the client (the returned pointer is the
receiver), the returned error and the wire log. -/
structure GetResult where
  c : Client
  err : Option Error
  sent : List Request

/-- The method `(c *Client) GetHomeList`: the result of `processHTTPResponse` is dropped. -/
def GetHomeList (v : Vendor) (c : Client) (accessToken : String) (sent : List Request) :
    GetResult :=
  { c := (processHTTPResponse decodeHomes (v.selectHomeList accessToken) c).1
    err := none
    sent := sent ++ [Request.selectHomeList accessToken] }

/-- The method `(c *Client) GetRoomList`. -/
def GetRoomList (v : Vendor) (c : Client) (accessToken : String) (homeID : Int)
    (sent : List Request) : GetResult :=
  { c := (processHTTPResponse decodeRooms (v.selectRoombyHome accessToken homeID) c).1
    err := none
    sent := sent ++ [Request.selectRoombyHome accessToken homeID] }

/-- The method `(c *Client) GetDeviceList`. -/
def GetDeviceList (v : Vendor) (c : Client) (accessToken : String) (roomID : Int)
    (sent : List Request) : GetResult :=
  { c := (processHTTPResponse decodeDevices (v.selectDevicebyRoom accessToken roomID) c).1
    err := none
    sent := sent ++ [Request.selectDevicebyRoom accessToken roomID] }

/-- The method `(c *Client) GetIndependentDevices`. -/
def GetIndependentDevices (v : Vendor) (c : Client) (accessToken : String) (homeId : Int)
    (sent : List Request) : GetResult :=
  { c := (processHTTPResponse decodeIndependentDevices
            (v.getIndependentDevices accessToken homeId) c).1
    err := none
    sent := sent ++ [Request.getIndependentDevices accessToken homeId] }

/-- The local variables of `GetAllDevices` during the walk, with the client and the wire log. -/
structure Walk where
  c : Client
  sent : List Request
  allDevices : List Device := []
  allRooms : List Room := []
  allHomes : List Home := []
  allIndependentDevices : List Device := []

/-- One iteration of `for room := range rooms.Data.Rooms` in `GetAllDevices`. -/
def roomStep (v : Vendor) (accessToken : String) (w : Walk) (room : Room) : Walk :=
  let g := GetDeviceList v w.c accessToken room.RoomID w.sent
  { w with
    c := g.c
    sent := g.sent
    allRooms := w.allRooms ++ [room]
    allDevices := w.allDevices ++ g.c.Data.Devices }

/-- One iteration of `for home := range homes.Data.Homes` in `GetAllDevices`. -/
def homeStep (v : Vendor) (accessToken : String) (w : Walk) (home : Home) : Walk :=
  let g := GetRoomList v w.c accessToken home.HomeID w.sent
  let w1 : Walk := { w with c := g.c, sent := g.sent, allHomes := w.allHomes ++ [home] }
  let w2 := g.c.Data.Rooms.foldl (roomStep v accessToken) w1
  let i := GetIndependentDevices v w2.c accessToken home.HomeID w2.sent
  { w2 with
    c := i.c
    sent := i.sent
    allDevices := w2.allDevices ++ i.c.Data.IndependentDevices
    allIndependentDevices := w2.allIndependentDevices ++ i.c.Data.IndependentDevices }

/-- The results of `GetAllDevices`, with the client and the wire log afterwards. -/
structure AllDevices where
  allDevices : List Device
  allRooms : List Room
  allHomes : List Home
  allIndependentDevices : List Device
  err : Option Error
  c : Client
  sent : List Request

/-- The method `(c *Client) GetAllDevices`. -/
def GetAllDevices (v : Vendor) (c : Client) (accessToken : String) (sent : List Request) :
    AllDevices :=
  let homes := GetHomeList v c accessToken sent
  let w := homes.c.Data.Homes.foldl (homeStep v accessToken) { c := homes.c, sent := homes.sent }
  { allDevices := w.allDevices
    allRooms := w.allRooms
    allHomes := w.allHomes
    allIndependentDevices := w.allIndependentDevices
    err := none
    c := w.c
    sent := w.sent }

/-- The method `(cf *Config) DeviceControl`: the returned flag, the holder and the wire log. -/
def DeviceControl (v : Vendor) (cf : Config) (accessToken deviceId newTemp : String)
    (sent : List Request) : Bool × Config × List Request :=
  let resp := v.deviceControl accessToken deviceId newTemp
  let cf1 := (processHTTPResponse decodeConfig resp cf).1
  (if cf1.ErrorCode = 0 then true else false, cf1,
   sent ++ [Request.deviceControl accessToken deviceId newTemp])

/-- The results of `UpdateLists`, with the client and the wire log afterwards. -/
structure Lists where
  homelist : List Home
  roomlist : List Room
  devicelist : List Device
  independentdevicelist : List Device
  c : Client
  sent : List Request

/-- The method `(c *Client) UpdateLists`; the collections hold the values appended here. -/
def UpdateLists (v : Vendor) (c : Client) (accessToken : String) (hc : List Home)
    (rc : List Room) (dc : List Device) (idc : List Device) (sent : List Request) : Lists :=
  let r := GetAllDevices v c accessToken sent
  { homelist := hc ++ r.allHomes
    roomlist := rc ++ r.allRooms
    devicelist := dc ++ r.allDevices
    independentdevicelist := idc ++ r.allIndependentDevices
    c := r.c
    sent := r.sent }

/-! ## service.go -/

/-- The call `strconv.FormatInt(i, 10)`: decimal digits, with a minus sign when negative. -/
def FormatInt (i : Int) : String :=
  match i with
  | Int.ofNat n => Nat.repr n
  | Int.negSucc n => "-" ++ Nat.repr (n + 1)

/-- Modelled from the spec: the type of `configs.Auth` is declared in package `model`, which
is not among the sources; the Credential of the data model, with the field names main uses. -/
structure Auth where
  AccessToken : String := ""
  RefreshToken : String := ""
  ExpireTime : Int := 0
  RefreshExpireTime : Int := 0
  deriving DecidableEq, Repr

/-- Modelled from the spec: `model.Configs` is not among the sources; main reads and writes
its field `Auth`. -/
structure Configs where
  Auth : Auth := {}
  deriving DecidableEq, Repr

/-- Modelled from the spec: `model.States` is not among the sources; the last Inventory
Snapshot, in the four collections main assigns. -/
structure States where
  DeviceCollection : List Device := []
  RoomCollection : List Room := []
  HomeCollection : List Home := []
  IndependentDeviceCollection : List Device := []
  deriving DecidableEq, Repr

/-- Modelled from the spec: the application states of package `model` that main names. -/
inductive AppState where
  | Running
  | NotConfigured
  deriving DecidableEq, Repr

/-- Modelled from the spec: the connection states of package `model` that main names. -/
inductive ConnState where
  | Connected
  | Disconnected
  deriving DecidableEq, Repr

/-- Modelled from the spec: the authentication states of package `model` that main names. -/
inductive AuthState where
  | Authenticated
  | NotAuthenticated
  deriving DecidableEq, Repr

/-- Modelled from the spec: the configuration states of package `model` that main names. -/
inductive ConfigState where
  | Configured
  | NotConfigured
  deriving DecidableEq, Repr

/-- Modelled from the spec: `model.AppLifecycle` is not among the sources; the process-wide
lifecycle, connection, authentication and configuration state. -/
structure AppLifecycle where
  appState : AppState
  connState : ConnState
  authState : AuthState
  configState : ConfigState
  deriving DecidableEq, Repr

/-- Modelled from the spec: `AppLifecycle.SetConnectionState` sets the connection state. -/
def AppLifecycle.SetConnectionState (a : AppLifecycle) (s : ConnState) : AppLifecycle :=
  { a with connState := s }

/-- The fields of `fimpgo.Address` that main sets. -/
structure Address where
  MsgType : String
  ResourceType : String
  ResourceName : String
  ResourceAddress : String
  ServiceName : String
  ServiceAddress : String
  deriving DecidableEq, Repr

/-- The value of a message: the `float32` of a sensor report or the string map of a setpoint
report (a Go map, listed in the order of the literal). -/
inductive Value where
  | float (v : Float32)
  | strMap (m : List (String × String))
  deriving DecidableEq, Repr

/-- The arguments of `fimpgo.NewMessage` that main passes non-nil. -/
structure FimpMessage where
  Typ : String
  Service : String
  ValueType : String
  Value : Value
  Properties : List (String × String)
  deriving DecidableEq, Repr

/-- The constant `MsgTypeEvt` of the library fimpgo. -/
def MsgTypeEvt : String := "evt"

/-- The constant `ResourceTypeDevice` of the library fimpgo. -/
def ResourceTypeDevice : String := "dev"

/-- The constant `VTypeFloat` of the library fimpgo. -/
def VTypeFloat : String := "float"

/-- The constant `VTypeStrMap` of the library fimpgo. -/
def VTypeStrMap : String := "str_map"

/-- The variables of main that the poll loop reads and writes, with the wire log and the
messages published so far. -/
structure Proc where
  configs : Configs
  states : States
  appLifecycle : AppLifecycle
  client : Client
  config : Config
  sent : List Request
  published : List (Address × FimpMessage)

/-- The body of `if configs.Auth.ExpireTime != 0` in the ticker loop of main (the expiry
check and the refresh); `ServiceName` does not occur. -/
def checkExpireTime (v : Vendor) (millis : Int) (p : Proc) : Proc :=
  if p.configs.Auth.ExpireTime ≠ 0 then
    if millis > p.configs.Auth.ExpireTime ∧ millis < p.configs.Auth.RefreshExpireTime then
      let r := RefreshToken v p.config p.configs.Auth.RefreshToken p.sent
      if r.err = none then
        { p with
          configs := { p.configs with Auth :=
            { AccessToken := r.accessToken, RefreshToken := r.refreshToken,
              ExpireTime := r.expireTime, RefreshExpireTime := r.refreshExpireTime } }
          appLifecycle := p.appLifecycle.SetConnectionState ConnState.Connected
          config := r.config
          sent := r.sent }
      else
        { p with
          configs := { p.configs with Auth := { p.configs.Auth with ExpireTime := 1 } }
          appLifecycle := p.appLifecycle.SetConnectionState ConnState.Disconnected
          config := r.config
          sent := r.sent }
    else if millis > p.configs.Auth.RefreshExpireTime then
      p
    else
      p
  else
    p

/-- The messages one iteration of the publish loop of main hands to `mqtt.Publish`, in order.
`ServiceName` is `model.ServiceName`, declared outside the sources. -/
def publishDevice (ServiceName : String) (device : Device) : List (Address × FimpMessage) :=
  let deviceId := FormatInt device.DeviceID
  let tempVal := device.CurrentTemp
  let props := [("unit", "C")]
  let adr : Address :=
    { MsgType := MsgTypeEvt, ResourceType := ResourceTypeDevice, ResourceName := ServiceName,
      ResourceAddress := "1", ServiceName := "sensor_temp", ServiceAddress := deviceId }
  let msg : FimpMessage :=
    { Typ := "evt.sensor.report", Service := "sensor_temp", ValueType := VTypeFloat,
      Value := Value.float tempVal, Properties := props }
  let setpointTemp := FormatInt device.SetpointTemp
  let setpointVal := [("type", "heat"), ("temp", setpointTemp), ("unit", "C")]
  if setpointTemp ≠ "0" then
    let adr2 : Address :=
      { MsgType := MsgTypeEvt, ResourceType := ResourceTypeDevice, ResourceName := ServiceName,
        ResourceAddress := "1", ServiceName := "thermostat", ServiceAddress := deviceId }
    let msg2 : FimpMessage :=
      { Typ := "evt.setpoint.report", Service := "thermostat", ValueType := VTypeStrMap,
        Value := Value.strMap setpointVal, Properties := [] }
    [(adr, msg), (adr2, msg2)]
  else
    [(adr, msg)]

/-- The loop `for i := 0; i < len(states.DeviceCollection); i++` of main. -/
def publishAll (ServiceName : String) (devices : List Device) : List (Address × FimpMessage) :=
  devices.foldl (fun out device => out ++ publishDevice ServiceName device) []

/-- One iteration of the ticker loop of main at time `millis` (epoch ms). -/
def pollTick (ServiceName : String) (v : Vendor) (millis : Int) (p : Proc) : Proc :=
  let p1 := checkExpireTime v millis p
  let cleared : States := {}
  let l := UpdateLists v p1.client p1.configs.Auth.AccessToken cleared.HomeCollection
    cleared.RoomCollection cleared.DeviceCollection cleared.IndependentDeviceCollection p1.sent
  let states : States :=
    { DeviceCollection := l.devicelist, RoomCollection := l.roomlist,
      HomeCollection := l.homelist, IndependentDeviceCollection := l.independentdevicelist }
  { p1 with
    states := states
    client := l.c
    sent := l.sent
    published := p1.published ++ publishAll ServiceName states.DeviceCollection }

/-- Where the loop of main is waiting: in `WaitForState("main", AppStateRunning)` or on the
ticker channel inside the inner loop. -/
inductive Mode where
  | Paused
  | Polling
  deriving DecidableEq, Repr

/-- The poll loop between two wake-ups. -/
structure Loop where
  mode : Mode
  proc : Proc

/-- What the loop finds when it wakes up: the application state the lifecycle reports, the
vendor as it answers now, and the clock. -/
structure Wake where
  appState : AppState
  vendor : Vendor
  millis : Int

/-- Modelled from the spec: `AppLifecycle.WaitForState` of package `model` is not among the
sources; the call returns once the lifecycle reports the awaited application state. The
result says whether it returns at this wake-up. -/
def AppLifecycle.WaitForState (a : AppLifecycle) (s : AppState) : Bool :=
  decide (a.appState = s)

/-- One wake-up of the loops of main, after the lifecycle report `e.appState` came in. In
`Paused` the loop sits in `WaitForState("main", AppStateRunning)`; when that returns, the
ticker starts and the first iteration runs at once. The inner loop `for ; true; <-ticker.C`
has no exit, so from `Polling` every wake-up runs an iteration and the `WaitForState` after
the inner loop is never reached. -/
def mainStep (ServiceName : String) (l : Loop) (e : Wake) : Loop :=
  let p : Proc := { l.proc with appLifecycle := { l.proc.appLifecycle with appState := e.appState } }
  match l.mode with
  | Mode.Paused =>
    if p.appLifecycle.WaitForState AppState.Running then
      { mode := Mode.Polling, proc := pollTick ServiceName e.vendor e.millis p }
    else
      { mode := Mode.Paused, proc := p }
  | Mode.Polling =>
    { mode := Mode.Polling, proc := pollTick ServiceName e.vendor e.millis p }

/-- A run of main: the wake-ups in order. -/
def mainRun (ServiceName : String) (l : Loop) (es : List Wake) : Loop :=
  es.foldl (mainStep ServiceName) l

/-! ## Observations on the wire log -/

/-- The `Access_token` header of a request; `refreshtoken` carries none. -/
def Request.accessToken? (r : Request) : Option String :=
  match r with
  | Request.refreshtoken _ => none
  | Request.selectHomeList t => some t
  | Request.selectRoombyHome t _ => some t
  | Request.selectDevicebyRoom t _ => some t
  | Request.getIndependentDevices t _ => some t
  | Request.deviceControl t _ _ => some t

/-- Whether a request is the one `RefreshToken` sends. -/
def Request.isRefresh (r : Request) : Bool :=
  match r with
  | Request.refreshtoken _ => true
  | _ => false

/-- The requests put on the wire between two states of the process. -/
def issued (before after : Proc) : List Request :=
  after.sent.drop before.sent.length

/-- The number of `RefreshToken` calls in a stretch of the wire log. -/
def refreshCalls (l : List Request) : Nat :=
  (l.filter Request.isRefresh).length

/-! ## Outcomes of a list request -/

/-- A list request succeeds with the list `l`: status 200 and a body that decodes to `l`. -/
def okList {α : Type} (l : List α) : HttpResult (ListBody α) :=
  HttpResult.response 200 { list := some l, decodeErr := none }

/-- A list request fails: transport error, status other than 200, or a body whose decoding
returns an error. This is when `processHTTPResponse` returns a non-nil error. -/
def HttpResult.failed {α : Type} (r : HttpResult (ListBody α)) : Bool :=
  match r with
  | HttpResult.transportError _ => true
  | HttpResult.response StatusCode body => StatusCode ≠ 200 || body.decodeErr.isSome

/-- A list request fails and assigns no list: transport error, status other than 200, or a
body that is rejected before the list is assigned. -/
def HttpResult.failedUnassigned {α : Type} (r : HttpResult (ListBody α)) : Bool :=
  match r with
  | HttpResult.transportError _ => true
  | HttpResult.response StatusCode body =>
    StatusCode ≠ 200 || (body.decodeErr.isSome && body.list.isNone)

/-! ## The facts of a device, as the specification words them -/

/-- The temperature fact of a device: a sensor report addressed by the decimal device id,
carrying the current temperature with unit "C". -/
def temperatureFact (ServiceName : String) (d : Device) : Address × FimpMessage :=
  ({ MsgType := "evt", ResourceType := "dev", ResourceName := ServiceName,
     ResourceAddress := "1", ServiceName := "sensor_temp",
     ServiceAddress := FormatInt d.DeviceID },
   { Typ := "evt.sensor.report", Service := "sensor_temp", ValueType := "float",
     Value := Value.float d.CurrentTemp, Properties := [("unit", "C")] })

/-- The setpoint fact of a device: a setpoint report addressed by the decimal device id, of
type "heat", with the decimal setpoint as `temp` and unit "C". -/
def setpointFact (ServiceName : String) (d : Device) : Address × FimpMessage :=
  ({ MsgType := "evt", ResourceType := "dev", ResourceName := ServiceName,
     ResourceAddress := "1", ServiceName := "thermostat",
     ServiceAddress := FormatInt d.DeviceID },
   { Typ := "evt.setpoint.report", Service := "thermostat", ValueType := "str_map",
     Value := Value.strMap [("type", "heat"), ("temp", FormatInt d.SetpointTemp), ("unit", "C")],
     Properties := [] })

/-- The facts of a device list: for each device in list order its temperature fact, followed
by its setpoint fact when the setpoint is not zero. -/
def factsOf (ServiceName : String) (devices : List Device) : List (Address × FimpMessage) :=
  (devices.map fun d =>
    temperatureFact ServiceName d ::
      (if d.SetpointTemp ≠ 0 then [setpointFact ServiceName d] else [])).flatten

/-! ## Concrete vendors and states -/

/-- A home with id 1. -/
def home1 : Home := { HomeID := 1, HomeName := "cabin" }

/-- A home with id 2. -/
def home2 : Home := { HomeID := 2, HomeName := "flat" }

/-- A room with id 10. -/
def room10 : Room := { RoomID := 10, RoomName := "living" }

/-- A room with id 11. -/
def room11 : Room := { RoomID := 11, RoomName := "bath" }

/-- A heater at 21.5 degrees (bit pattern 0x41AC0000) with no setpoint. -/
def device100 : Device := { DeviceID := 100, CurrentTemp := ⟨0x41AC0000⟩, SetpointTemp := 0 }

/-- A heater at 19.0 degrees (bit pattern 0x41980000) with setpoint 22. -/
def device101 : Device := { DeviceID := 101, CurrentTemp := ⟨0x41980000⟩, SetpointTemp := 22 }

/-- A vendor with one home, one room and the two heaters in it; refresh and control answer
200 with new tokens and error code 0. -/
def vendorUp : Vendor where
  refreshtoken := fun _ => HttpResult.response 200
    { errorCode := some 0, access_token := some "access-new", refresh_token := some "refresh-new",
      expireTime := some 1700000600000, refresh_expireTime := some 1702592000000 }
  selectHomeList := fun _ => okList [home1]
  selectRoombyHome := fun _ homeId => if homeId = 1 then okList [room10] else okList []
  selectDevicebyRoom := fun _ roomId =>
    if roomId = 10 then okList [device100, device101] else okList []
  getIndependentDevices := fun _ _ => okList []
  deviceControl := fun _ _ _ => HttpResult.response 200 { errorCode := some 0 }

/-- The vendor `vendorUp` answering the refresh request with HTTP 500. -/
def vendorRefresh500 : Vendor :=
  { vendorUp with refreshtoken := fun _ => HttpResult.response 500 {} }

/-- The vendor `vendorUp` answering the refresh request with 200 and a body that is not JSON. -/
def vendorRefreshGarbled : Vendor :=
  { vendorUp with refreshtoken := fun _ =>
      HttpResult.response 200 { decodeErr := some "invalid character" } }

/-- The vendor `vendorUp` with the home-list request failing in transport. -/
def vendorHomeListDown : Vendor :=
  { vendorUp with selectHomeList := fun _ => HttpResult.transportError "dial tcp: i/o timeout" }

/-- A vendor with two homes: home 1 has room 10 with heater 100, the room list of home 2
answers HTTP 500. -/
def vendorTwoHomes : Vendor where
  refreshtoken := fun _ => HttpResult.response 500 {}
  selectHomeList := fun _ => okList [home1, home2]
  selectRoombyHome := fun _ homeId =>
    if homeId = 1 then okList [room10] else HttpResult.response 500 {}
  selectDevicebyRoom := fun _ roomId => if roomId = 10 then okList [device100] else okList []
  getIndependentDevices := fun _ _ => okList []
  deviceControl := fun _ _ _ => HttpResult.response 500 {}

/-- A vendor with one home and two rooms: room 10 has heater 100, the device list of room 11
fails in transport. -/
def vendorTwoRooms : Vendor where
  refreshtoken := fun _ => HttpResult.response 500 {}
  selectHomeList := fun _ => okList [home1]
  selectRoombyHome := fun _ _ => okList [room10, room11]
  selectDevicebyRoom := fun _ roomId =>
    if roomId = 10 then okList [device100] else HttpResult.transportError "connection reset"
  getIndependentDevices := fun _ _ => okList []
  deviceControl := fun _ _ _ => HttpResult.response 500 {}

/-- The vendor `vendorUp` with the control request failing in transport. -/
def vendorControlDown : Vendor :=
  { vendorUp with deviceControl := fun _ _ _ => HttpResult.transportError "no route to host" }

/-- A running, connected, authenticated process whose access token expired at 1000 and whose
refresh window ends at 5000; client and config are the zero values main starts with. -/
def procExpired : Proc where
  configs := { Auth := { AccessToken := "access-old", RefreshToken := "refresh-old",
                         ExpireTime := 1000, RefreshExpireTime := 5000 } }
  states := {}
  appLifecycle := { appState := AppState.Running, connState := ConnState.Connected,
                    authState := AuthState.Authenticated, configState := ConfigState.Configured }
  client := {}
  config := {}
  sent := []
  published := []

/-- The client as a complete fetch from `vendorUp` leaves it. -/
def clientAfterFetch : Client :=
  (GetAllDevices vendorUp {} "access-old" []).c

/-- The vendor `vendorUp` answering the control request with HTTP 500. -/
def vendorControl500 : Vendor :=
  { vendorUp with deviceControl := fun _ _ _ => HttpResult.response 500 {} }

/-- The process `procExpired` with the access token expired 10 ms before 1700000000000 and the
refresh window ending one day after. -/
def procDue : Proc :=
  { procExpired with
    configs := { Auth := { AccessToken := "access-old", RefreshToken := "refresh-old",
                           ExpireTime := 1699999999990, RefreshExpireTime := 1700086400000 } } }

/-- The process `procExpired` with a credential valid until 9000, waiting for the lifecycle. -/
def loopStart : Loop :=
  { mode := Mode.Paused
    proc := { procExpired with
      configs := { Auth := { AccessToken := "access-old", RefreshToken := "refresh-old",
                             ExpireTime := 9000, RefreshExpireTime := 90000 } } } }

/-- The vendor `vendorUp` with the refresh request failing in transport. -/
def vendorRefreshDown : Vendor :=
  { vendorUp with refreshtoken := fun _ => HttpResult.transportError "connection refused" }

/-- The process `procExpired` with the zero credential of a session never established. -/
def procNever : Proc :=
  { procExpired with configs := { Auth := {} } }

/-! ## Lemmas on the walk -/

theorem foldl_roomStep_sent (v : Vendor) (tok : String) (rooms : List Room) :
    ∀ w : Walk, ∃ l, (rooms.foldl (roomStep v tok) w).sent = w.sent ++ l ∧
      ∀ r ∈ l, r.accessToken? = some tok := by
  induction rooms with
  | nil => intro w; exact ⟨[], by simp, by simp⟩
  | cons room rest ih =>
    intro w
    obtain ⟨l, hl, hP⟩ := ih (roomStep v tok w room)
    refine ⟨Request.selectDevicebyRoom tok room.RoomID :: l, ?_, ?_⟩
    · rw [List.foldl_cons, hl]
      simp [roomStep, GetDeviceList]
    · intro r hr
      rcases List.mem_cons.mp hr with h | h
      · subst h; rfl
      · exact hP r h

theorem homeStep_sent (v : Vendor) (tok : String) (w : Walk) (home : Home) :
    ∃ l, (homeStep v tok w home).sent = w.sent ++ l ∧ ∀ r ∈ l, r.accessToken? = some tok := by
  obtain ⟨l, hl, hP⟩ := foldl_roomStep_sent v tok
    (GetRoomList v w.c tok home.HomeID w.sent).c.Data.Rooms
    { w with c := (GetRoomList v w.c tok home.HomeID w.sent).c,
             sent := (GetRoomList v w.c tok home.HomeID w.sent).sent,
             allHomes := w.allHomes ++ [home] }
  refine ⟨Request.selectRoombyHome tok home.HomeID :: (l ++
    [Request.getIndependentDevices tok home.HomeID]), ?_, ?_⟩
  · simp only [homeStep, GetIndependentDevices, hl]
    simp [GetRoomList]
  · intro r hr
    simp only [List.mem_cons, List.mem_append, List.mem_singleton, List.not_mem_nil,
      or_false] at hr
    rcases hr with h | h | h
    · subst h; rfl
    · exact hP r h
    · subst h; rfl

theorem foldl_homeStep_sent (v : Vendor) (tok : String) (homes : List Home) :
    ∀ w : Walk, ∃ l, (homes.foldl (homeStep v tok) w).sent = w.sent ++ l ∧
      ∀ r ∈ l, r.accessToken? = some tok := by
  induction homes with
  | nil => intro w; exact ⟨[], by simp, by simp⟩
  | cons home rest ih =>
    intro w
    obtain ⟨l1, hl1, hP1⟩ := homeStep_sent v tok w home
    obtain ⟨l2, hl2, hP2⟩ := ih (homeStep v tok w home)
    refine ⟨l1 ++ l2, ?_, ?_⟩
    · rw [List.foldl_cons, hl2, hl1, List.append_assoc]
    · intro r hr
      rcases List.mem_append.mp hr with h | h
      · exact hP1 r h
      · exact hP2 r h

/-- `GetAllDevices` first sends `selectHomeList`, and every request it sends carries the access
token it was given. -/
theorem GetAllDevices_sent (v : Vendor) (c : Client) (tok : String) (sent : List Request) :
    ∃ l, (GetAllDevices v c tok sent).sent = sent ++ Request.selectHomeList tok :: l ∧
      ∀ r ∈ l, r.accessToken? = some tok := by
  obtain ⟨l, hl, hP⟩ := foldl_homeStep_sent v tok (GetHomeList v c tok sent).c.Data.Homes
    { c := (GetHomeList v c tok sent).c, sent := (GetHomeList v c tok sent).sent }
  refine ⟨l, ?_, hP⟩
  simp only [GetAllDevices, hl]
  simp [GetHomeList]

/-- The expiry check sends the refresh request once inside the refresh window and nothing
otherwise. -/
theorem checkExpireTime_sent (v : Vendor) (millis : Int) (p : Proc) :
    (checkExpireTime v millis p).sent = p.sent ++
      (if p.configs.Auth.ExpireTime ≠ 0 ∧ p.configs.Auth.ExpireTime < millis ∧
          millis < p.configs.Auth.RefreshExpireTime
        then [Request.refreshtoken p.configs.Auth.RefreshToken] else []) := by
  unfold checkExpireTime
  by_cases h0 : p.configs.Auth.ExpireTime = 0
  · simp [h0]
  · by_cases hw : millis > p.configs.Auth.ExpireTime ∧ millis < p.configs.Auth.RefreshExpireTime
    · have hw2 : p.configs.Auth.ExpireTime < millis ∧ millis < p.configs.Auth.RefreshExpireTime := hw
      simp only [ne_eq, h0, not_false_eq_true, hw, hw2, and_self, if_true]
      split <;> simp [RefreshToken] <;> split <;> rfl
    · have hw2 : ¬ (p.configs.Auth.ExpireTime < millis ∧
          millis < p.configs.Auth.RefreshExpireTime) := hw
      simp [h0, hw, hw2]

/-- The wire log of a tick: the expiry check, then `selectHomeList` and the rest of the walk,
all with the access token stored after the expiry check. -/
theorem pollTick_sent (ServiceName : String) (v : Vendor) (millis : Int) (p : Proc) :
    ∃ l, (pollTick ServiceName v millis p).sent = (checkExpireTime v millis p).sent ++
        Request.selectHomeList (checkExpireTime v millis p).configs.Auth.AccessToken :: l ∧
      ∀ r ∈ l, r.accessToken? = some (checkExpireTime v millis p).configs.Auth.AccessToken := by
  obtain ⟨l, hl, hP⟩ := GetAllDevices_sent v (checkExpireTime v millis p).client
    (checkExpireTime v millis p).configs.Auth.AccessToken (checkExpireTime v millis p).sent
  exact ⟨l, by simp only [pollTick, UpdateLists, hl], hP⟩

theorem refreshCalls_of_accessToken (tok : String) (l : List Request)
    (h : ∀ r ∈ l, r.accessToken? = some tok) : refreshCalls l = 0 := by
  unfold refreshCalls
  rw [List.length_eq_zero, List.filter_eq_nil_iff]
  intro r hr
  have := h r hr
  cases r <;> simp_all [Request.accessToken?, Request.isRefresh]

/-! ## Lemmas on the collected devices -/

theorem GetDeviceList_devices (v : Vendor) (c : Client) (tok : String) (roomID : Int)
    (sent : List Request) (ds : List Device) (h : v.selectDevicebyRoom tok roomID = okList ds) :
    (GetDeviceList v c tok roomID sent).c.Data.Devices = ds := by
  simp [GetDeviceList, processHTTPResponse, h, okList, decodeDevices]

theorem GetRoomList_rooms (v : Vendor) (c : Client) (tok : String) (homeID : Int)
    (sent : List Request) (rooms : List Room) (h : v.selectRoombyHome tok homeID = okList rooms) :
    (GetRoomList v c tok homeID sent).c.Data.Rooms = rooms := by
  simp [GetRoomList, processHTTPResponse, h, okList, decodeRooms]

theorem GetIndependentDevices_devices (v : Vendor) (c : Client) (tok : String) (homeId : Int)
    (sent : List Request) (ds : List Device)
    (h : v.getIndependentDevices tok homeId = okList ds) :
    (GetIndependentDevices v c tok homeId sent).c.Data.IndependentDevices = ds := by
  simp [GetIndependentDevices, processHTTPResponse, h, okList, decodeIndependentDevices]

theorem GetHomeList_homes (v : Vendor) (c : Client) (tok : String) (sent : List Request)
    (homes : List Home) (h : v.selectHomeList tok = okList homes) :
    (GetHomeList v c tok sent).c.Data.Homes = homes := by
  simp [GetHomeList, processHTTPResponse, h, okList, decodeHomes]

/-- A device already collected stays collected over the rest of a room loop. -/
theorem mem_foldl_roomStep_of_mem (v : Vendor) (tok : String) (d : Device) (rooms : List Room) :
    ∀ w : Walk, d ∈ w.allDevices → d ∈ (rooms.foldl (roomStep v tok) w).allDevices := by
  induction rooms with
  | nil => intro w h; exact h
  | cons room rest ih =>
    intro w h
    rw [List.foldl_cons]
    exact ih _ (by simp [roomStep, h])

/-- The room loop collects the devices of every room it walks whose device list succeeds. -/
theorem mem_foldl_roomStep (v : Vendor) (tok : String) (d : Device) (room : Room)
    (ds : List Device) (hok : v.selectDevicebyRoom tok room.RoomID = okList ds) (hd : d ∈ ds)
    (rooms : List Room) :
    ∀ w : Walk, room ∈ rooms → d ∈ (rooms.foldl (roomStep v tok) w).allDevices := by
  induction rooms with
  | nil => intro w h; simp at h
  | cons r rest ih =>
    intro w h
    rw [List.foldl_cons]
    rcases List.mem_cons.mp h with h1 | h1
    · subst h1
      apply mem_foldl_roomStep_of_mem
      simp [roomStep, GetDeviceList_devices v w.c tok room.RoomID w.sent ds hok, hd]
    · exact ih _ h1

/-- A device already collected stays collected over one more home. -/
theorem mem_homeStep_of_mem (v : Vendor) (tok : String) (d : Device) (w : Walk) (home : Home)
    (h : d ∈ w.allDevices) : d ∈ (homeStep v tok w home).allDevices := by
  simp only [homeStep, List.mem_append]
  exact Or.inl (mem_foldl_roomStep_of_mem v tok d _ _ h)

/-- A device already collected stays collected over the rest of the home loop. -/
theorem mem_foldl_homeStep_of_mem (v : Vendor) (tok : String) (d : Device) (homes : List Home) :
    ∀ w : Walk, d ∈ w.allDevices → d ∈ (homes.foldl (homeStep v tok) w).allDevices := by
  induction homes with
  | nil => intro w h; exact h
  | cons home rest ih =>
    intro w h
    rw [List.foldl_cons]
    exact ih _ (mem_homeStep_of_mem v tok d w home h)

/-- One home step collects the devices of each room of a home whose room list succeeds. -/
theorem mem_homeStep_room (v : Vendor) (tok : String) (d : Device) (w : Walk) (home : Home)
    (rooms : List Room) (hrooms : v.selectRoombyHome tok home.HomeID = okList rooms)
    (room : Room) (hroom : room ∈ rooms) (ds : List Device)
    (hok : v.selectDevicebyRoom tok room.RoomID = okList ds) (hd : d ∈ ds) :
    d ∈ (homeStep v tok w home).allDevices := by
  simp only [homeStep, List.mem_append]
  refine Or.inl (mem_foldl_roomStep v tok d room ds hok hd _ _ ?_)
  rw [GetRoomList_rooms v w.c tok home.HomeID w.sent rooms hrooms]
  exact hroom

/-- One home step collects the independent devices of a home whose list succeeds. -/
theorem mem_homeStep_independent (v : Vendor) (tok : String) (d : Device) (w : Walk)
    (home : Home) (ds : List Device)
    (hok : v.getIndependentDevices tok home.HomeID = okList ds) (hd : d ∈ ds) :
    d ∈ (homeStep v tok w home).allDevices := by
  simp only [homeStep, List.mem_append]
  refine Or.inr ?_
  rw [GetIndependentDevices_devices v _ tok home.HomeID _ ds hok]
  exact hd

/-- The home loop collects what each of its home steps collects. -/
theorem mem_foldl_homeStep (v : Vendor) (tok : String) (d : Device) (home : Home)
    (hstep : ∀ w : Walk, d ∈ (homeStep v tok w home).allDevices) (homes : List Home) :
    ∀ w : Walk, home ∈ homes → d ∈ (homes.foldl (homeStep v tok) w).allDevices := by
  induction homes with
  | nil => intro w h; simp at h
  | cons h0 rest ih =>
    intro w h
    rw [List.foldl_cons]
    rcases List.mem_cons.mp h with h1 | h1
    · subst h1
      exact mem_foldl_homeStep_of_mem v tok d rest _ (hstep w)
    · exact ih _ h1

/-! ## Lemmas on formatting and publishing -/

theorem toDigitsCore_ne_nil (f n : Nat) (c : Char) (tl : List Char) :
    Nat.toDigitsCore 10 f n (c :: tl) ≠ [] := by
  intro h
  have := Nat.toDigitsCore_lens_eq 10 f n c tl
  rw [h] at this
  simp at this

/-- Only zero has the decimal digits "0". -/
theorem toDigits_eq_zero (n : Nat) (h : Nat.toDigits 10 n = [Char.ofNat 48]) : n = 0 := by
  unfold Nat.toDigits at h
  rw [Nat.toDigitsCore] at h
  by_cases hn : n / 10 = 0
  · simp only [hn, if_true] at h
    have hlt : n < 10 := by omega
    rw [Nat.mod_eq_of_lt hlt] at h
    interval_cases n <;> simp_all [Nat.digitChar]
  · exfalso
    simp only [hn, if_false] at h
    have hlen := Nat.toDigitsCore_lens_eq 10 n (n / 10) (Nat.digitChar (n % 10)) []
    rw [h] at hlen
    have hn1 : 1 ≤ n := by omega
    obtain ⟨k, rfl⟩ : ∃ k, n = k + 1 := ⟨n - 1, by omega⟩
    have hne : (Nat.toDigitsCore 10 (k + 1) ((k + 1) / 10) []).length ≠ 0 := by
      rw [Nat.toDigitsCore]
      split
      · simp
      · intro h0
        exact toDigitsCore_ne_nil _ _ _ _ (List.length_eq_zero.mp h0)
    simp only [List.length_singleton] at hlen
    omega

/-- The string test of main, `setpointTemp != "0"`, is the test `SetpointTemp != 0`. -/
theorem FormatInt_eq_zero (i : Int) : FormatInt i = "0" ↔ i = 0 := by
  constructor
  · intro h
    cases i with
    | ofNat n =>
      have h1 : Nat.toDigits 10 n = [Char.ofNat 48] := by
        have := congrArg String.data h
        simpa [FormatInt, Nat.repr] using this
      rw [toDigits_eq_zero n h1]; rfl
    | negSucc n =>
      exfalso
      have := congrArg String.data h
      simp [FormatInt] at this
  · rintro rfl
    decide

theorem publishDevice_eq (ServiceName : String) (d : Device) :
    publishDevice ServiceName d =
      temperatureFact ServiceName d ::
        (if d.SetpointTemp ≠ 0 then [setpointFact ServiceName d] else []) := by
  unfold publishDevice
  by_cases h : d.SetpointTemp = 0
  · have h1 : FormatInt d.SetpointTemp = "0" := (FormatInt_eq_zero _).mpr h
    simp only [ne_eq, h1, not_true_eq_false, if_false, h]
    rfl
  · have h1 : FormatInt d.SetpointTemp ≠ "0" := fun e => h ((FormatInt_eq_zero _).mp e)
    simp only [ne_eq, h1, not_false_eq_true, if_true, h]
    rfl

theorem foldl_publish (ServiceName : String) (devices : List Device) :
    ∀ out : List (Address × FimpMessage),
      devices.foldl (fun out device => out ++ publishDevice ServiceName device) out =
        out ++ (devices.map (publishDevice ServiceName)).flatten := by
  induction devices with
  | nil => intro out; simp
  | cons d rest ih => intro out; simp [ih]

/-- The expiry check leaves the client and the published messages as they were. -/
theorem checkExpireTime_client_published (v : Vendor) (millis : Int) (p : Proc) :
    (checkExpireTime v millis p).client = p.client ∧
    (checkExpireTime v millis p).published = p.published := by
  unfold checkExpireTime
  split
  · split
    · simp only []
      split <;> exact ⟨rfl, rfl⟩
    · split <;> exact ⟨rfl, rfl⟩
  · exact ⟨rfl, rfl⟩

/-! ## Properties of the specification -/

/-- C1. For every credential and every current time `millis`, one poll tick calls `RefreshToken`
exactly once if `ExpireTime != 0` and `ExpireTime < millis < RefreshExpireTime`, and zero times
otherwise (so never when `ExpireTime == 0`, when `millis > RefreshExpireTime`, or at the
boundaries `millis == ExpireTime`, `millis == RefreshExpireTime`). -/
theorem pollTick_refreshCalls (ServiceName : String) (v : Vendor) (millis : Int) (p : Proc) :
    refreshCalls (issued p (pollTick ServiceName v millis p)) =
      if p.configs.Auth.ExpireTime ≠ 0 ∧ p.configs.Auth.ExpireTime < millis ∧
          millis < p.configs.Auth.RefreshExpireTime
        then 1 else 0 := by
  obtain ⟨l, hl, hP⟩ := pollTick_sent ServiceName v millis p
  have h0 : refreshCalls l = 0 := refreshCalls_of_accessToken _ l hP
  unfold refreshCalls at h0
  unfold issued refreshCalls
  rw [hl, checkExpireTime_sent, List.append_assoc, List.drop_left]
  split <;> simp [Request.isRefresh, h0]

/-- C2 (the code departs from the claim). A tick at time 2000 on a credential that expired at
1000 and is refreshable until 5000, whose one refresh call is answered with HTTP 500, or with
200 and an undecodable body: `RefreshToken` returns a nil error, so the tick overwrites all four
credential fields with the contents of the `Config` holder (here the zero values, `ExpireTime`
0 and not the sentinel 1) and sets the connection state to connected. -/
theorem pollTick_refresh_not_200 :
    refreshCalls (issued procExpired (pollTick "mill" vendorRefresh500 2000 procExpired)) = 1 ∧
    (RefreshToken vendorRefresh500 procExpired.config "refresh-old" []).err = none ∧
    (pollTick "mill" vendorRefresh500 2000 procExpired).configs.Auth =
      { AccessToken := "", RefreshToken := "", ExpireTime := 0, RefreshExpireTime := 0 } ∧
    (pollTick "mill" vendorRefresh500 2000 procExpired).appLifecycle.connState =
      ConnState.Connected ∧
    (pollTick "mill" vendorRefreshGarbled 2000 procExpired).configs.Auth =
      { AccessToken := "", RefreshToken := "", ExpireTime := 0, RefreshExpireTime := 0 } ∧
    (pollTick "mill" vendorRefreshGarbled 2000 procExpired).appLifecycle.connState =
      ConnState.Connected := by
  refine ⟨?_, ?_, ?_, ?_, ?_, ?_⟩ <;> decide

/-- C3 (counterexample). When the home-list request fails in transport,
`GetAllDevices` still returns a nil error, on a fresh client as on a used one; on a client
that holds the lists of an earlier fetch it walks the home list left in the client and
returns that home, its room and its devices. -/
theorem GetAllDevices_homeList_failure :
    (GetAllDevices vendorHomeListDown {} "access-old" []).err = none ∧
    clientAfterFetch.Data.Homes = [home1] ∧
    (GetAllDevices vendorHomeListDown clientAfterFetch "access-old" []).err = none ∧
    (GetAllDevices vendorHomeListDown clientAfterFetch "access-old" []).allHomes = [home1] ∧
    (GetAllDevices vendorHomeListDown clientAfterFetch "access-old" []).allRooms = [room10] ∧
    (GetAllDevices vendorHomeListDown clientAfterFetch "access-old" []).allDevices =
      [device100, device101] := by
  refine ⟨?_, ?_, ?_, ?_, ?_, ?_⟩ <;> decide

/-- C3, amended. On a client that holds no home list, if the home-list request fails with a
transport error, a status other than 200 or a body rejected before a home list is assigned,
`GetAllDevices` returns empty home, room, device and independent-device lists; its error
result is nil. -/
theorem GetAllDevices_homeList_failure_empty (v : Vendor) (c : Client) (tok : String)
    (sent : List Request) (hc : c.Data.Homes = [])
    (hfail : (v.selectHomeList tok).failedUnassigned = true) :
    (GetAllDevices v c tok sent).err = none ∧
    (GetAllDevices v c tok sent).allHomes = [] ∧
    (GetAllDevices v c tok sent).allRooms = [] ∧
    (GetAllDevices v c tok sent).allDevices = [] ∧
    (GetAllDevices v c tok sent).allIndependentDevices = [] := by
  have hh : (GetHomeList v c tok sent).c.Data.Homes = [] := by
    unfold GetHomeList processHTTPResponse
    cases hr : v.selectHomeList tok with
    | transportError e => simpa using hc
    | response st body =>
      rw [hr] at hfail
      by_cases hst : st = 200
      · subst hst
        have hb : body.decodeErr.isSome = true ∧ body.list.isNone = true := by
          simpa [HttpResult.failedUnassigned] using hfail
        have hl : body.list = none := by
          cases hbl : body.list with
          | none => rfl
          | some l => rw [hbl] at hb; simp at hb
        simp [decodeHomes, hl, hc]
      · simp [hst, hc]
  simp [GetAllDevices, hh]

/-- C3, amended, at the fresh client with the home list failing in transport. -/
theorem GetAllDevices_homeList_failure_empty_witness :
    (GetAllDevices vendorHomeListDown {} "access-old" []).err = none ∧
    (GetAllDevices vendorHomeListDown {} "access-old" []).allHomes = [] ∧
    (GetAllDevices vendorHomeListDown {} "access-old" []).allRooms = [] ∧
    (GetAllDevices vendorHomeListDown {} "access-old" []).allDevices = [] ∧
    (GetAllDevices vendorHomeListDown {} "access-old" []).allIndependentDevices = [] :=
  GetAllDevices_homeList_failure_empty vendorHomeListDown {} "access-old" [] rfl rfl

/-- C4 (the code departs from the claim). With two homes of which the second fails to list its
rooms, `GetAllDevices` on a fresh client walks for home 2 the room list that home 1 left in the
client: room 10 and heater 100 are added a second time. With two rooms of which the second
fails to list its devices, the devices that room 10 left in the client are added a second
time. -/
theorem GetAllDevices_branch_failure :
    (GetAllDevices vendorTwoHomes {} "access-old" []).allHomes = [home1, home2] ∧
    (GetAllDevices vendorTwoHomes {} "access-old" []).allRooms = [room10, room10] ∧
    (GetAllDevices vendorTwoHomes {} "access-old" []).allDevices = [device100, device100] ∧
    (GetAllDevices vendorTwoRooms {} "access-old" []).allRooms = [room10, room11] ∧
    (GetAllDevices vendorTwoRooms {} "access-old" []).allDevices = [device100, device100] := by
  refine ⟨?_, ?_, ?_, ?_, ?_⟩ <;> decide

/-- C5. For a vendor with the homes `homes` (N = `homes.length`, at least 1 as `bad` is one of
them) in which the room-list request fails for the one home `bad` and every other request
succeeds, `GetAllDevices` returns a nil error and its flattened device list contains every
device of every room of the other homes and every independent device of those homes. -/
theorem GetAllDevices_one_home_fails (v : Vendor) (c : Client) (tok : String)
    (sent : List Request) (homes : List Home) (bad : Home)
    (roomsOf : Int → List Room) (devicesOf : Int → List Device)
    (independentOf : Int → List Device)
    (hhomes : v.selectHomeList tok = okList homes)
    (hbad : bad ∈ homes)
    (_hfail : (v.selectRoombyHome tok bad.HomeID).failed = true)
    (hrooms : ∀ h ∈ homes, h ≠ bad → v.selectRoombyHome tok h.HomeID = okList (roomsOf h.HomeID))
    (hdevices : ∀ roomId, v.selectDevicebyRoom tok roomId = okList (devicesOf roomId))
    (hindep : ∀ h ∈ homes, v.getIndependentDevices tok h.HomeID = okList (independentOf h.HomeID)) :
    1 ≤ homes.length ∧
    (GetAllDevices v c tok sent).err = none ∧
    ∀ h ∈ homes, h ≠ bad →
      (∀ room ∈ roomsOf h.HomeID, ∀ d ∈ devicesOf room.RoomID,
        d ∈ (GetAllDevices v c tok sent).allDevices) ∧
      (∀ d ∈ independentOf h.HomeID, d ∈ (GetAllDevices v c tok sent).allDevices) := by
  refine ⟨List.length_pos_of_mem hbad, rfl, ?_⟩
  intro h hh hne
  have hwalk : ∀ d : Device, (∀ w : Walk, d ∈ (homeStep v tok w h).allDevices) →
      d ∈ (GetAllDevices v c tok sent).allDevices := by
    intro d hstep
    simp only [GetAllDevices]
    refine mem_foldl_homeStep v tok d h hstep _ _ ?_
    rw [GetHomeList_homes v c tok sent homes hhomes]
    exact hh
  constructor
  · intro room hroom d hd
    exact hwalk d (fun w => mem_homeStep_room v tok d w h (roomsOf h.HomeID) (hrooms h hh hne)
      room hroom (devicesOf room.RoomID) (hdevices room.RoomID) hd)
  · intro d hd
    exact hwalk d (fun w => mem_homeStep_independent v tok d w h (independentOf h.HomeID)
      (hindep h hh) hd)

/-- C5 at two homes: home 2 fails to list its rooms, and heater 100 of room 10 of home 1 is in
the flattened device list. -/
theorem GetAllDevices_one_home_fails_witness :
    (vendorTwoHomes.selectRoombyHome "access-old" home2.HomeID).failed = true ∧
    (GetAllDevices vendorTwoHomes {} "access-old" []).err = none ∧
    device100 ∈ (GetAllDevices vendorTwoHomes {} "access-old" []).allDevices :=
  have h := GetAllDevices_one_home_fails vendorTwoHomes {} "access-old" [] [home1, home2] home2
    (fun homeId => if homeId = 1 then [room10] else [])
    (fun roomId => if roomId = 10 then [device100] else [])
    (fun _ => [])
    rfl (by decide) (by decide) (by decide)
    (by intro roomId; simp only [vendorTwoHomes]; split <;> rfl)
    (by decide)
  ⟨by decide, h.2.1, (h.2.2 home1 (by decide) (by decide)).1 room10 (by decide) device100
    (by decide)⟩

/-- C6. For every device list handed to the publish step, the messages published are, for each
device in list order, exactly one temperature fact (service address the decimal `DeviceID`,
value `CurrentTemp`, unit "C") and then a setpoint fact (type "heat", unit "C", `temp` the
decimal `SetpointTemp`) if and only if `SetpointTemp != 0`. -/
theorem publishAll_eq_factsOf (ServiceName : String) (devices : List Device) :
    publishAll ServiceName devices = factsOf ServiceName devices ∧
    ∀ (v : Vendor) (millis : Int) (p : Proc),
      (pollTick ServiceName v millis p).published =
        p.published ++ factsOf ServiceName (pollTick ServiceName v millis p).states.DeviceCollection := by
  have hpub : ∀ ds : List Device, publishAll ServiceName ds = factsOf ServiceName ds := by
    intro ds
    unfold publishAll factsOf
    rw [foldl_publish, List.nil_append]
    congr 1
    exact List.map_congr_left (fun d _ => publishDevice_eq ServiceName d)
  refine ⟨hpub devices, ?_⟩
  intro v millis p
  have hkeep : (checkExpireTime v millis p).published = p.published := by
    unfold checkExpireTime
    split
    · split
      · simp only []
        split <;> rfl
      · split <;> rfl
    · rfl
  simp only [pollTick, hpub, hkeep]

/-- C6 at the heaters (21.5, setpoint 0) and (19.0, setpoint 22): two temperature facts and one
setpoint fact, for the second heater, with `temp` "22"; a negative setpoint keeps its sign. -/
theorem publishAll_scenario :
    publishAll "mill" [device100, device101] =
      [temperatureFact "mill" device100, temperatureFact "mill" device101,
       setpointFact "mill" device101] ∧
    (setpointFact "mill" device101).2.Value =
      Value.strMap [("type", "heat"), ("temp", "22"), ("unit", "C")] ∧
    (temperatureFact "mill" device100).1.ServiceAddress = "100" ∧
    (temperatureFact "mill" device100).2.Value = Value.float ⟨0x41AC0000⟩ ∧
    FormatInt (-5) = "-5" := by
  rw [(publishAll_eq_factsOf "mill" [device100, device101]).1]
  decide

/-- C7 (the code departs from the claim). On a zero-valued `Config`,
`DeviceControl` returns true when the control request fails in transport and when it is
answered with HTTP 500: the holder keeps `ErrorCode` 0. -/
theorem DeviceControl_failure_true :
    (DeviceControl vendorControlDown {} "access-old" "100" "22" []).1 = true ∧
    (DeviceControl vendorControl500 {} "access-old" "100" "22" []).1 = true := by
  constructor <;> decide

/-- C8 (counterexample). The credential of `procExpired` has `ExpireTime` 1000 and
`RefreshExpireTime` 5000; after a tick at 6000 the connection state is still connected and the
authentication state still authenticated. -/
theorem pollTick_window_lapsed_keeps_states :
    procExpired.configs.Auth.ExpireTime ≠ 0 ∧
    6000 > procExpired.configs.Auth.RefreshExpireTime ∧
    (pollTick "mill" vendorUp 6000 procExpired).appLifecycle.connState = ConnState.Connected ∧
    (pollTick "mill" vendorUp 6000 procExpired).appLifecycle.authState =
      AuthState.Authenticated := by
  refine ⟨?_, ?_, ?_, ?_⟩ <;> decide

/-- C8, amended. For every credential with `ExpireTime != 0` and every `millis` after
`RefreshExpireTime`, a poll tick leaves the connection state, the authentication state and the
stored credential as they were, and it does not call `RefreshToken`. -/
theorem pollTick_window_lapsed (ServiceName : String) (v : Vendor) (millis : Int) (p : Proc)
    (_h0 : p.configs.Auth.ExpireTime ≠ 0) (h : millis > p.configs.Auth.RefreshExpireTime) :
    (pollTick ServiceName v millis p).appLifecycle = p.appLifecycle ∧
    (pollTick ServiceName v millis p).configs = p.configs ∧
    refreshCalls (issued p (pollTick ServiceName v millis p)) = 0 := by
  have hnot : ¬ (millis > p.configs.Auth.ExpireTime ∧ millis < p.configs.Auth.RefreshExpireTime) := by
    intro hw
    have h1 := hw.2
    have h2 : p.configs.Auth.RefreshExpireTime < millis := h
    omega
  have hc : checkExpireTime v millis p = p := by
    unfold checkExpireTime
    simp only [hnot, if_false]
    split <;> rfl
  refine ⟨?_, ?_, ?_⟩
  · simp only [pollTick, hc]
  · simp only [pollTick, hc]
  · obtain ⟨l, hl, hP⟩ := pollTick_sent ServiceName v millis p
    rw [hc] at hl hP
    unfold issued
    rw [hl, List.drop_left]
    exact refreshCalls_of_accessToken p.configs.Auth.AccessToken _ (by
      intro r hr
      rcases List.mem_cons.mp hr with h1 | h1
      · subst h1; rfl
      · exact hP r h1)

/-- C8, amended, at `ExpireTime` 1000, `RefreshExpireTime` 5000 and time 6000. -/
theorem pollTick_window_lapsed_witness :
    (pollTick "mill" vendorUp 6000 procExpired).appLifecycle = procExpired.appLifecycle ∧
    (pollTick "mill" vendorUp 6000 procExpired).configs = procExpired.configs ∧
    refreshCalls (issued procExpired (pollTick "mill" vendorUp 6000 procExpired)) = 0 :=
  pollTick_window_lapsed "mill" vendorUp 6000 procExpired (by decide) (by decide)

/-- C9. For every credential with `ExpireTime != 0` and `ExpireTime < millis <
RefreshExpireTime`, if the refresh call of the tick is answered with status 200 and a body that
decodes, then `RefreshToken` returns a nil error, the stored credential becomes exactly the
four values it returns, the connection state becomes connected, and the requests of the tick are
the one refresh request, then `selectHomeList` with the returned access token, then requests that
all carry the returned access token. -/
theorem pollTick_refresh_success (ServiceName : String) (v : Vendor) (millis : Int) (p : Proc)
    (body : ConfigBody)
    (h0 : p.configs.Auth.ExpireTime ≠ 0)
    (h1 : p.configs.Auth.ExpireTime < millis)
    (h2 : millis < p.configs.Auth.RefreshExpireTime)
    (hresp : v.refreshtoken p.configs.Auth.RefreshToken = HttpResult.response 200 body)
    (hdec : body.decodeErr = none) :
    (RefreshToken v p.config p.configs.Auth.RefreshToken p.sent).err = none ∧
    (pollTick ServiceName v millis p).configs.Auth =
      { AccessToken := (RefreshToken v p.config p.configs.Auth.RefreshToken p.sent).accessToken
        RefreshToken := (RefreshToken v p.config p.configs.Auth.RefreshToken p.sent).refreshToken
        ExpireTime := (RefreshToken v p.config p.configs.Auth.RefreshToken p.sent).expireTime
        RefreshExpireTime :=
          (RefreshToken v p.config p.configs.Auth.RefreshToken p.sent).refreshExpireTime } ∧
    (pollTick ServiceName v millis p).appLifecycle.connState = ConnState.Connected ∧
    ∃ l, issued p (pollTick ServiceName v millis p) =
        Request.refreshtoken p.configs.Auth.RefreshToken ::
        Request.selectHomeList
          (RefreshToken v p.config p.configs.Auth.RefreshToken p.sent).accessToken :: l ∧
      ∀ x ∈ l, x.accessToken? =
        some (RefreshToken v p.config p.configs.Auth.RefreshToken p.sent).accessToken := by
  have herr : (RefreshToken v p.config p.configs.Auth.RefreshToken p.sent).err = none := by
    simp [RefreshToken, processHTTPResponse, hresp, decodeConfig, hdec]
  have hw : millis > p.configs.Auth.ExpireTime ∧ millis < p.configs.Auth.RefreshExpireTime :=
    ⟨h1, h2⟩
  have hc : checkExpireTime v millis p =
      { p with
        configs := { p.configs with Auth :=
          { AccessToken := (RefreshToken v p.config p.configs.Auth.RefreshToken p.sent).accessToken
            RefreshToken :=
              (RefreshToken v p.config p.configs.Auth.RefreshToken p.sent).refreshToken
            ExpireTime := (RefreshToken v p.config p.configs.Auth.RefreshToken p.sent).expireTime
            RefreshExpireTime :=
              (RefreshToken v p.config p.configs.Auth.RefreshToken p.sent).refreshExpireTime } }
        appLifecycle := p.appLifecycle.SetConnectionState ConnState.Connected
        config := (RefreshToken v p.config p.configs.Auth.RefreshToken p.sent).config
        sent := (RefreshToken v p.config p.configs.Auth.RefreshToken p.sent).sent } := by
    unfold checkExpireTime
    simp only [ne_eq, h0, not_false_eq_true, hw, and_self, if_true, herr]
  obtain ⟨l, hl, hP⟩ := pollTick_sent ServiceName v millis p
  refine ⟨herr, ?_, ?_, l, ?_, ?_⟩
  · simp only [pollTick, hc]
  · simp only [pollTick, hc, AppLifecycle.SetConnectionState]
  · unfold issued
    rw [hl, checkExpireTime_sent]
    have hcond : p.configs.Auth.ExpireTime ≠ 0 ∧ p.configs.Auth.ExpireTime < millis ∧
        millis < p.configs.Auth.RefreshExpireTime := ⟨h0, h1, h2⟩
    rw [if_pos hcond, List.append_assoc, List.drop_left, hc]
    rfl
  · intro x hx
    have := hP x hx
    rw [hc] at this
    exact this

/-- C9 at a credential whose `ExpireTime` is 10 ms before the tick and whose
`RefreshExpireTime` is one day after it. -/
theorem pollTick_refresh_success_witness :
    (pollTick "mill" vendorUp 1700000000000 procDue).configs.Auth =
      { AccessToken := "access-new", RefreshToken := "refresh-new",
        ExpireTime := 1700000600000, RefreshExpireTime := 1702592000000 } ∧
    (pollTick "mill" vendorUp 1700000000000 procDue).appLifecycle.connState =
      ConnState.Connected ∧
    ∃ l, issued procDue (pollTick "mill" vendorUp 1700000000000 procDue) =
        Request.refreshtoken "refresh-old" :: Request.selectHomeList "access-new" :: l ∧
      ∀ x ∈ l, x.accessToken? = some "access-new" :=
  (pollTick_refresh_success "mill" vendorUp 1700000000000 procDue
    { errorCode := some 0, access_token := some "access-new",
      refresh_token := some "refresh-new", expireTime := some 1700000600000,
      refresh_expireTime := some 1702592000000 }
    (by decide) (by decide) (by decide) rfl rfl).2

/-- C10 (the code departs from the claim). A run in which the lifecycle reports running at the
first wake-up and not configured at the next: the loop stays in `Polling`, and the second tick
sends the whole inventory walk to the vendor. -/
theorem mainRun_not_configured_still_polls :
    (mainStep "mill" loopStart
      { appState := AppState.Running, vendor := vendorUp, millis := 2000 }).mode = Mode.Polling ∧
    (mainRun "mill" loopStart
      [{ appState := AppState.Running, vendor := vendorUp, millis := 2000 },
       { appState := AppState.NotConfigured, vendor := vendorUp, millis := 3000 }]).mode =
      Mode.Polling ∧
    (mainRun "mill" loopStart
      [{ appState := AppState.Running, vendor := vendorUp, millis := 2000 },
       { appState := AppState.NotConfigured, vendor := vendorUp, millis := 3000 }]
      ).proc.appLifecycle.appState = AppState.NotConfigured ∧
    issued
      (mainStep "mill" loopStart
        { appState := AppState.Running, vendor := vendorUp, millis := 2000 }).proc
      (mainRun "mill" loopStart
        [{ appState := AppState.Running, vendor := vendorUp, millis := 2000 },
         { appState := AppState.NotConfigured, vendor := vendorUp, millis := 3000 }]).proc =
      [Request.selectHomeList "access-old", Request.selectRoombyHome "access-old" 1,
       Request.selectDevicebyRoom "access-old" 10,
       Request.getIndependentDevices "access-old" 1] := by
  refine ⟨?_, ?_, ?_, ?_⟩ <;> decide

/-- C11 (counterexample). A tick on a credential never established (`ExpireTime` 0), a tick
whose refresh fails in transport, and a tick after `RefreshExpireTime` each send the inventory
walk to the vendor and publish the facts of the two heaters it returns. -/
theorem pollTick_fetches_unusable_token :
    procNever.configs.Auth.ExpireTime = 0 ∧
    issued procNever (pollTick "mill" vendorUp 2000 procNever) =
      [Request.selectHomeList "", Request.selectRoombyHome "" 1,
       Request.selectDevicebyRoom "" 10, Request.getIndependentDevices "" 1] ∧
    (pollTick "mill" vendorUp 2000 procNever).published =
      [temperatureFact "mill" device100, temperatureFact "mill" device101,
       setpointFact "mill" device101] ∧
    (RefreshToken vendorRefreshDown procExpired.config "refresh-old" []).err ≠ none ∧
    issued procExpired (pollTick "mill" vendorRefreshDown 2000 procExpired) =
      [Request.refreshtoken "refresh-old", Request.selectHomeList "access-old",
       Request.selectRoombyHome "access-old" 1, Request.selectDevicebyRoom "access-old" 10,
       Request.getIndependentDevices "access-old" 1] ∧
    (pollTick "mill" vendorRefreshDown 2000 procExpired).configs.Auth.ExpireTime = 1 ∧
    (pollTick "mill" vendorRefreshDown 2000 procExpired).published =
      [temperatureFact "mill" device100, temperatureFact "mill" device101,
       setpointFact "mill" device101] ∧
    6000 > procExpired.configs.Auth.RefreshExpireTime ∧
    issued procExpired (pollTick "mill" vendorUp 6000 procExpired) =
      [Request.selectHomeList "access-old", Request.selectRoombyHome "access-old" 1,
       Request.selectDevicebyRoom "access-old" 10,
       Request.getIndependentDevices "access-old" 1] ∧
    (pollTick "mill" vendorUp 6000 procExpired).published =
      [temperatureFact "mill" device100, temperatureFact "mill" device101,
       setpointFact "mill" device101] := by
  refine ⟨?_, ?_, ?_, ?_, ?_, ?_, ?_, ?_, ?_, ?_⟩ <;> decide

/-- C11, amended. Every poll tick issues the inventory fetch, whatever the token state (also
with `ExpireTime == 0`, after a failed refresh and after `RefreshExpireTime`): after the
requests of the expiry check it sends `selectHomeList` with the access token then stored, its
device collection is the flattened device list `GetAllDevices` returns for that token, and it
publishes the messages of the publish loop for that collection. -/
theorem pollTick_fetch_unconditional (ServiceName : String) (v : Vendor) (millis : Int)
    (p : Proc) :
    (∃ l, issued p (pollTick ServiceName v millis p) =
        (if p.configs.Auth.ExpireTime ≠ 0 ∧ p.configs.Auth.ExpireTime < millis ∧
            millis < p.configs.Auth.RefreshExpireTime
          then [Request.refreshtoken p.configs.Auth.RefreshToken] else []) ++
        Request.selectHomeList (pollTick ServiceName v millis p).configs.Auth.AccessToken :: l) ∧
    (pollTick ServiceName v millis p).states.DeviceCollection =
      (GetAllDevices v p.client (pollTick ServiceName v millis p).configs.Auth.AccessToken
        (checkExpireTime v millis p).sent).allDevices ∧
    (pollTick ServiceName v millis p).published =
      p.published ++ publishAll ServiceName (pollTick ServiceName v millis p).states.DeviceCollection := by
  obtain ⟨l, hl, _⟩ := pollTick_sent ServiceName v millis p
  obtain ⟨hclient, hpub⟩ := checkExpireTime_client_published v millis p
  refine ⟨⟨l, ?_⟩, ?_, ?_⟩
  · unfold issued
    rw [hl, checkExpireTime_sent, List.append_assoc, List.drop_left]
    rfl
  · simp only [pollTick, UpdateLists, hclient, List.nil_append]
  · simp only [pollTick, hpub]

end Mill
